import Mathlib

/-
Verification of the physics / collision core of a 2D platformer.

Shallow embedding conventions:
* JavaScript numbers are modelled as exact rationals; the enemy-bounce
  handler, which calls Math.sqrt, is modelled over the reals.
* A JavaScript field read that can yield the value undefined is modelled
  with Option; arithmetic on undefined yields none (the NaN of the model)
  and every comparison against none is false, exactly as NaN comparisons
  are false in JavaScript.
* Entities are identified by natural-number ids; the identity comparison
  used by the engine (the JavaScript operator checking object identity)
  becomes equality of ids.  A store maps ids to entity data.
-/

/-- Two dimensional vector with named components, as in the source. -/
structure Vec2 (α : Type) where
  x : α
  y : α
deriving DecidableEq, Repr

/-- Bounds component (Bounds.js): collision-box size and offset. -/
structure Bounds (α : Type) where
  width : α
  height : α
  offsetX : α
  offsetY : α
deriving DecidableEq, Repr

/-- World-space axis-aligned box. -/
structure Box (α : Type) where
  x : α
  y : α
  width : α
  height : α
deriving DecidableEq, Repr

/-- Bounds.getCollisionBox (Bounds.js lines 14-21): world-space collision
box of an entity situated at (ex, ey). -/
def Bounds.getCollisionBox {α : Type} [Add α] (b : Bounds α) (ex ey : α) :
    Box α :=
  { x := ex + b.offsetX, y := ey + b.offsetY,
    width := b.width, height := b.height }

/-- Data carried by a registered entity, as read by the collision engine
and the response handlers.  The field size is Option-valued because the
JavaScript property entity.size is undefined on entities (such as
Platform) whose constructors never assign it. -/
structure EntityData where
  x : ℚ
  y : ℚ
  size : Option ℚ
  bounds : Bounds ℚ
  boundsEnabled : Bool
deriving DecidableEq, Repr

/-- JavaScript addition of a number and a possibly-undefined number:
undefined propagates as NaN (none). -/
def jsAdd (a : ℚ) : Option ℚ → Option ℚ
  | some b => some (a + b)
  | none => none

/-- JavaScript strict-less-than where either side may be NaN (none):
any comparison involving NaN is false. -/
def jsLt : Option ℚ → Option ℚ → Bool
  | some a, some b => decide (a < b)
  | _, _ => false

/-- JavaScript strict-greater-than with NaN semantics. -/
def jsGt (a b : Option ℚ) : Bool := jsLt b a

namespace CollisionEngine

/-- CollisionEngine.isColliding (CollisionEngine.js lines 42-48): the AABB
separation test on the raw fields entity.x, entity.y, entity.size.  Note
that it reads the scalar size property, not the Bounds component, and
that a comparison involving an undefined size is false. -/
def isColliding (a b : EntityData) : Bool :=
  !(jsLt (jsAdd a.x a.size) (some b.x) ||
    jsGt (some a.x) (jsAdd b.x b.size) ||
    jsLt (jsAdd a.y a.size) (some b.y) ||
    jsGt (some a.y) (jsAdd b.y b.size))

/-- CollisionEngine.handleCollision (lines 49-59) restricted to
non-mutating callbacks: for each subscription (entity id, callback id),
in subscription order, emit an invocation for the first branch (matching
entityA, argument entityB) and then for the second branch (matching
entityB, argument entityA).  An invocation is recorded as
(subscription entity, callback id, argument entity). -/
def handleCollision (subs : List (ℕ × ℕ)) (a b : ℕ) : List (ℕ × ℕ × ℕ) :=
  subs.flatMap fun s =>
    (if s.1 = a then [(s.1, s.2, b)] else []) ++
    (if s.1 = b then [(s.1, s.2, a)] else [])

/-- The ordered list of index pairs i < j visited by the double loop of
checkCollisions (lines 31-40), expressed structurally on the registry
list: the head is paired with every later element, then the tail is
swept. -/
def sweepFrom : List ℕ → List (ℕ × ℕ)
  | [] => []
  | a :: rest => rest.map (fun b => (a, b)) ++ sweepFrom rest

/-- CollisionEngine.checkCollisions (lines 29-41) under non-mutating
callbacks: every pair i < j of the registry is tested with isColliding
and, on success, dispatched through handleCollision.  The result is the
ordered log of callback invocations. -/
def checkCollisionsLog (store : ℕ → EntityData) (entities : List ℕ)
    (subs : List (ℕ × ℕ)) : List (ℕ × ℕ × ℕ) :=
  (sweepFrom entities).flatMap fun p =>
    if isColliding (store p.1) (store p.2) then handleCollision subs p.1 p.2
    else []

end CollisionEngine

namespace CollisionEngine

/-- Mutable state threaded through a checkCollisions sweep whose
callbacks may change the engine: the live registry (reassigned by
unregister), the game score, and the ordered invocation log. -/
structure SweepState where
  registry : List ℕ
  score : ℤ
  log : List (ℕ × ℕ × ℕ)
deriving DecidableEq, Repr

/-- Behaviour of a callback invocation: given the subscription entity,
the callback id, the counterpart entity and the current state, produce
the next state. -/
def Apply : Type := ℕ → ℕ → ℕ → SweepState → SweepState

/-- handleCollision (lines 49-59) with live state: the subscriptions are
visited in order and, for each, first the entityA branch and then the
entityB branch fires when its identity test succeeds. -/
def handleCollisionRun (subs : List (ℕ × ℕ)) (apply : Apply) (a b : ℕ)
    (s : SweepState) : SweepState :=
  subs.foldl
    (fun st sub =>
      let st1 := if sub.1 = a then apply sub.1 sub.2 b st else st
      if sub.1 = b then apply sub.1 sub.2 a st1 else st1)
    s

/-- Inner loop of checkCollisions (lines 32-38) over the LIVE registry:
the loop bound and both entity reads go through the current state each
iteration, so an unregister performed by a callback takes effect for the
remainder of the sweep.  Fuel bounds the iteration count; every theorem
below evaluates the loop on a concrete state with fuel exceeding the
registry length, so the fuel-exhaustion branch is never taken.  A read
outside the live registry (which in JavaScript would throw on the
subsequent property access) stops the sweep. -/
def innerRun (store : ℕ → EntityData) (subs : List (ℕ × ℕ)) (apply : Apply) :
    ℕ → ℕ → ℕ → SweepState → SweepState
  | 0, _, _, s => s
  | fuel + 1, i, j, s =>
    if j < s.registry.length then
      match s.registry.get? i, s.registry.get? j with
      | some a, some b =>
        let s1 := if isColliding (store a) (store b) then
            handleCollisionRun subs apply a b s
          else s
        innerRun store subs apply fuel i (j + 1) s1
      | _, _ => s
    else s

/-- Outer loop of checkCollisions (line 31): the bound re-reads the live
registry length each iteration. -/
def outerRun (store : ℕ → EntityData) (subs : List (ℕ × ℕ)) (apply : Apply) :
    ℕ → ℕ → SweepState → SweepState
  | 0, _, s => s
  | fuel + 1, i, s =>
    if i < s.registry.length then
      outerRun store subs apply fuel (i + 1)
        (innerRun store subs apply fuel i (i + 1) s)
    else s

/-- checkCollisions (lines 29-41) with stateful callbacks. -/
def checkCollisionsRun (store : ℕ → EntityData) (subs : List (ℕ × ℕ))
    (apply : Apply) (fuel : ℕ) (s : SweepState) : SweepState :=
  outerRun store subs apply fuel 0 s

/-- The coin branch of the player subscription installed by
GameModel.loadLevel (GameModel.js lines 718-729): when the counterpart is
a coin, the coin is unregistered from the engine immediately (filter by
identity, CollisionEngine.unregister lines 16-19) and the score is
incremented; the invocation is recorded.  The collect animation and the
deferred removal from the coins array touch no engine state and are not
modelled. -/
def coinHandlerApply (isCoin : ℕ → Bool) : Apply :=
  fun subEnt cb counterpart s =>
    { registry := if isCoin counterpart then
        s.registry.filter (fun e => e ≠ counterpart)
      else s.registry,
      score := if isCoin counterpart then s.score + 1 else s.score,
      log := s.log ++ [(subEnt, cb, counterpart)] }

end CollisionEngine

/-- Bounds.intersects (Bounds.js lines 49-57): separation test on the two
collision boxes computed from the Bounds components.  Exactly as in
isColliding, the separation comparisons are strict, so boxes whose edges
exactly touch are not separated and count as intersecting. -/
def Bounds.intersects (a b : EntityData) : Bool :=
  let boxA := a.bounds.getCollisionBox a.x a.y
  let boxB := b.bounds.getCollisionBox b.x b.y
  !(decide (boxA.x + boxA.width < boxB.x) ||
    decide (boxA.x > boxB.x + boxB.width) ||
    decide (boxA.y + boxA.height < boxB.y) ||
    decide (boxA.y > boxB.y + boxB.height))

/-- Direction tokens delivered by the input collaborator. -/
inductive Direction where
  | up
  | down
  | left
  | right
deriving DecidableEq, Repr

/-- The per-frame set of active directions (a JavaScript Set of the four
direction strings), as four membership flags. -/
structure ActiveDirections where
  up : Bool
  down : Bool
  left : Bool
  right : Bool
deriving DecidableEq, Repr

/-- The empty direction set. -/
def ActiveDirections.none : ActiveDirections :=
  ⟨false, false, false, false⟩

/-- Set insertion (activeDirections.add). -/
def ActiveDirections.add (s : ActiveDirections) : Direction → ActiveDirections
  | Direction.up => { s with up := true }
  | Direction.down => { s with down := true }
  | Direction.left => { s with left := true }
  | Direction.right => { s with right := true }

/-- Modelled from the spec: the Physics component file is not part of the
sources at hand (only Player.js constructs and reads it); per the spec it
is a record holding a grounded flag and gravity constants.  Only the
grounded flag is ever read or written by the embedded code, so only it is
carried. -/
structure Physics where
  onGround : Bool
deriving DecidableEq, Repr

/-- Facing of the player sprite. -/
inductive Facing where
  | left
  | right
deriving DecidableEq, Repr

/-- Mutable state of the Player entity (Player.js constructor), generic in
the number type: the dynamics (update, applyInput) are instantiated at the
rationals, while the enemy-bounce response, which involves a square root,
is instantiated at the reals.  The numeric configuration constants set in
the constructor and never reassigned are modelled as the definitions
below rather than as record fields.  Animation bookkeeping (inherited
from Entity) is independent of every field read here and is omitted. -/
structure PlayerState (α : Type) where
  x : α
  y : α
  velocity : Vec2 α
  bounds : Bounds α
  physics : Physics
  facingDirection : Facing
  isRunning : Bool
  midJump : Bool
  jumpKeyHeld : Bool
  pastFrameOnGround : Bool
  gravityTransitionTimer : α
  coyoteTimer : α
  activeDirections : ActiveDirections
deriving DecidableEq, Repr

namespace Player

/-- maxSpeed = 500 (Player.js line 14). -/
def maxSpeed : ℚ := 500

/-- acceleration = 500 (line 16). -/
def acceleration : ℚ := 500

/-- frictionX = 0.85 (line 17). -/
def frictionX : ℚ := 0.85

/-- jumpVelocity = -700 (line 32). -/
def jumpVelocity : ℚ := -700

/-- jumpGravity = 1500 (line 35). -/
def jumpGravity : ℚ := 1500

/-- fallGravity = 3000 (line 36). -/
def fallGravity : ℚ := 3000

/-- maxFallSpeed = 800 (line 37). -/
def maxFallSpeed : ℚ := 800

/-- gravityTransitionTime = 0.2 (line 40). -/
def gravityTransitionTime : ℚ := 0.2

/-- coyoteTime = 0.75 (line 44). -/
def coyoteTime : ℚ := 0.75

/-- The bounds installed by the Player constructor (line 26):
new Bounds(size - 24, size - 12, 12, 12) with size = 64. -/
def playerBounds : Bounds ℚ := ⟨40, 52, 12, 12⟩

end Player

/-- Math.sign on the rationals. -/
def jsSign (q : ℚ) : ℚ :=
  if q > 0 then 1 else if q < 0 then -1 else 0

/-- Math.round: rounding half toward positive infinity. -/
def jsRound (q : ℚ) : ℚ := ((⌊q + 1 / 2⌋ : ℤ) : ℚ)

/-- Utils.smoothstep (utils source): with a distance below 0.01 snap to
the target, otherwise interpolate by the smoothstep polynomial of the
factor. -/
def Utils.smoothstep (current target factor : ℚ) : ℚ :=
  let distance := target - current
  let normalizedDistance := |distance|
  if normalizedDistance < 0.01 then target
  else
    let smoothFactor := factor * factor * (3 - 2 * factor)
    current + distance * smoothFactor

namespace Player

/-- Player.applyInput (Player.js lines 57-94): record the direction in the
active set; on up, jump exactly when grounded or the coyote timer is
positive (setting the jump velocity, forcing airborne, consuming the
coyote timer, marking mid-jump) and mark the jump key held; on left and
right accelerate and set the facing; afterwards clamp the horizontal
speed to maxSpeed.  The onJump view callback has no model-visible
effect. -/
def applyInput (d : Direction) (deltaTime : ℚ) (p : PlayerState ℚ) :
    PlayerState ℚ :=
  let p := { p with activeDirections := p.activeDirections.add d }
  let accelerationAmount := acceleration * deltaTime
  let p :=
    match d with
    | Direction.up =>
      let p :=
        if p.physics.onGround || p.coyoteTimer > 0 then
          { p with
            velocity := { p.velocity with y := jumpVelocity },
            physics := { onGround := false },
            coyoteTimer := 0,
            midJump := true }
        else p
      { p with jumpKeyHeld := true }
    | Direction.down => p
    | Direction.left =>
      { p with
        velocity := { p.velocity with x := p.velocity.x - accelerationAmount },
        facingDirection := Facing.left }
    | Direction.right =>
      { p with
        velocity := { p.velocity with x := p.velocity.x + accelerationAmount },
        facingDirection := Facing.right }
  if |p.velocity.x| > maxSpeed then
    { p with velocity := { p.velocity with x := jsSign p.velocity.x * maxSpeed } }
  else p

/-- Coyote-timer bookkeeping at the top of Player.update (Player.js lines
112-123): arm the timer when the ground was just left, decay it while
still airborne, clear it (and the mid-jump flag) when grounded. -/
def coyoteStep (deltaTime : ℚ) (p : PlayerState ℚ) : PlayerState ℚ :=
  if p.pastFrameOnGround && !p.physics.onGround then
    { p with coyoteTimer := coyoteTime }
  else if !p.pastFrameOnGround && !p.physics.onGround then
    { p with coyoteTimer := max 0 (p.coyoteTimer - deltaTime) }
  else if p.physics.onGround then
    { p with coyoteTimer := 0, midJump := false }
  else p

/-- Snapshot and reset of the grounded flag (Player.js lines 124-126):
record the current grounded flag for the next frame, then force it
false. -/
def groundResetStep (p : PlayerState ℚ) : PlayerState ℚ :=
  { p with
    pastFrameOnGround := p.physics.onGround,
    physics := { onGround := false } }

/-- Horizontal friction decision and application (Player.js lines
128-159): set the running flag, decide whether the horizontal input is
valid (unopposed by the current velocity and not both directions), and
multiply the horizontal velocity by the friction factor when it is
not. -/
def frictionStep (p : PlayerState ℚ) : PlayerState ℚ :=
  let hasLeft := p.activeDirections.left
  let hasRight := p.activeDirections.right
  let p := { p with isRunning := hasLeft || hasRight }
  let hasValidHorizontalInput :=
    if hasLeft || hasRight then
      if hasLeft && hasRight then false
      else if hasLeft && decide (p.velocity.x > 0) then false
      else if hasRight && decide (p.velocity.x < 0) then false
      else true
    else false
  if !hasValidHorizontalInput then
    { p with velocity := { p.velocity with x := p.velocity.x * frictionX } }
  else p

/-- Gravity selection, application and fall-speed cap (Player.js lines
161-186): while rising use the light jump gravity if the key is held
(resetting the blend timer), otherwise blend toward the fall gravity by
smoothstep over the transition time; while falling use the fall gravity;
then cap the downward speed. -/
def gravityStep (deltaTime : ℚ) (p : PlayerState ℚ) : PlayerState ℚ :=
  let gravityState :=
    if p.velocity.y < 0 then
      if p.jumpKeyHeld then (jumpGravity, (0 : ℚ))
      else
        let t := p.gravityTransitionTimer + deltaTime
        let transitionProgress := min (t / gravityTransitionTime) 1
        let smoothProgress := Utils.smoothstep 0 1 transitionProgress
        (jumpGravity + (fallGravity - jumpGravity) * smoothProgress, t)
    else (fallGravity, p.gravityTransitionTimer)
  let p := { p with gravityTransitionTimer := gravityState.2 }
  let p := { p with velocity :=
    { p.velocity with y := p.velocity.y + gravityState.1 * deltaTime } }
  if p.velocity.y > maxFallSpeed then
    { p with velocity := { p.velocity with y := maxFallSpeed } }
  else p

/-- End-of-frame clearing of the jump-key flag and the direction set
(Player.js lines 188-192). -/
def clearInputStep (p : PlayerState ℚ) : PlayerState ℚ :=
  { p with jumpKeyHeld := false, activeDirections := ActiveDirections.none }

/-- Integration with immediate rounding of both coordinates (Player.js
lines 197-199). -/
def integrateStep (deltaTime : ℚ) (p : PlayerState ℚ) : PlayerState ℚ :=
  { p with
    x := jsRound (p.x + p.velocity.x * deltaTime),
    y := jsRound (p.y + p.velocity.y * deltaTime) }

/-- Player.update (Player.js lines 111-200): the per-tick sequence, in
source order: coyote bookkeeping, grounded snapshot and reset, horizontal
friction, gravity with fall cap, input clearing, integration with
rounding.  The inherited animation update (line 195) touches none of the
fields modelled here. -/
def update (deltaTime : ℚ) (p : PlayerState ℚ) : PlayerState ℚ :=
  integrateStep deltaTime
    (clearInputStep
      (gravityStep deltaTime
        (frictionStep
          (groundResetStep
            (coyoteStep deltaTime p)))))

end Player

/-- Position and bounds of a static entity as read by the collision
response (the argument named entity in handleStaticCollision). -/
structure EntityGeom (α : Type) where
  x : α
  y : α
  bounds : Bounds α

namespace GameModel

/-- Overlap depth on the x axis (GameModel.js lines 939-940). -/
def overlapX {α : Type} [LinearOrderedField α] (p : PlayerState α)
    (e : EntityGeom α) : α :=
  let playerBox := p.bounds.getCollisionBox p.x p.y
  let platformBox := e.bounds.getCollisionBox e.x e.y
  min (playerBox.x + playerBox.width - platformBox.x)
    (platformBox.x + platformBox.width - playerBox.x)

/-- Overlap depth on the y axis (GameModel.js lines 941-942). -/
def overlapY {α : Type} [LinearOrderedField α] (p : PlayerState α)
    (e : EntityGeom α) : α :=
  let playerBox := p.bounds.getCollisionBox p.x p.y
  let platformBox := e.bounds.getCollisionBox e.x e.y
  min (playerBox.y + playerBox.height - platformBox.y)
    (platformBox.y + platformBox.height - playerBox.y)

/-- GameModel.handleStaticCollision (GameModel.js lines 934-967):
minimum-translation resolution on the current collision boxes.  When the
x overlap is strictly smaller the player is snapped horizontally to the
near edge and the horizontal velocity is zeroed; otherwise the vertical
branch snaps vertically, sets the grounded flag when resolving from
above, and zeroes the vertical velocity. -/
def handleStaticCollision {α : Type} [LinearOrderedField α]
    (p : PlayerState α) (e : EntityGeom α) : PlayerState α :=
  let playerBox := p.bounds.getCollisionBox p.x p.y
  let platformBox := e.bounds.getCollisionBox e.x e.y
  if overlapX p e < overlapY p e then
    let p1 :=
      if playerBox.x < platformBox.x then
        { p with x := platformBox.x - playerBox.width - p.bounds.offsetX }
      else
        { p with x := platformBox.x + platformBox.width - p.bounds.offsetX }
    { p1 with velocity := { p1.velocity with x := 0 } }
  else
    let p1 :=
      if playerBox.y < platformBox.y then
        { p with y := platformBox.y - playerBox.height - p.bounds.offsetY,
                 physics := { onGround := true } }
      else
        { p with y := platformBox.y + platformBox.height - p.bounds.offsetY }
    { p1 with velocity := { p1.velocity with y := 0 } }

end GameModel

/-- Player.applyBounce (Player.js lines 206-216): add the bounce vector to
the velocity, then rescale the velocity to maxSpeed when its magnitude
exceeds it.  Over the reals because of the square root. -/
noncomputable def Player.applyBounce (p : PlayerState ℝ) (bounceVector : Vec2 ℝ) :
    PlayerState ℝ :=
  let p := { p with velocity :=
    { x := p.velocity.x + bounceVector.x, y := p.velocity.y + bounceVector.y } }
  let speed := Real.sqrt (p.velocity.x * p.velocity.x +
    p.velocity.y * p.velocity.y)
  if speed > (Player.maxSpeed : ℝ) then
    { p with velocity :=
      { x := p.velocity.x / speed * (Player.maxSpeed : ℝ),
        y := p.velocity.y / speed * (Player.maxSpeed : ℝ) } }
  else p

/-- The enemy branch of the player subscription installed by
GameModel.loadLevel (GameModel.js lines 730-749): decrement the score by
10, capture the center difference from the pre-resolution positions,
apply static resolution against the enemy, and apply the normalized
bounce impulse only when the captured distance is positive. -/
noncomputable def GameModel.enemyCollisionResponse (p : PlayerState ℝ)
    (enemy : EntityGeom ℝ) (score : ℤ) : PlayerState ℝ × ℤ :=
  let score1 := score - 10
  let dx := p.x - enemy.x
  let dy := p.y - enemy.y
  let distance := Real.sqrt (dx * dx + dy * dy)
  let p1 := GameModel.handleStaticCollision p enemy
  if distance > 0 then
    let bounceFactor : ℝ := 2000
    let bounceVector : Vec2 ℝ :=
      { x := dx / distance * bounceFactor, y := dy / distance * bounceFactor }
    (Player.applyBounce p1 bounceVector, score1)
  else (p1, score1)

/-- Repeated simulation ticks: left fold of Player.update over a list of
frame deltas, used to state multi-tick properties. -/
def Player.updateSeq (dts : List ℚ) (p : PlayerState ℚ) : PlayerState ℚ :=
  dts.foldl (fun st d => Player.update d st) p

/-- Closed square-box overlap test on position and scalar size, written
from the amended reading of the spec sentence on checkCollisions: two
boxes count as overlapping exactly when they meet on both axes, edges
included, so exactly touching edges count as overlap. -/
def specClosedOverlap (a b : EntityData) (sa sb : ℚ) : Bool :=
  decide (b.x ≤ a.x + sa) && decide (a.x ≤ b.x + sb) &&
  decide (b.y ≤ a.y + sa) && decide (a.y ≤ b.y + sb)

/-- Entity fixture: a 50 by 50 box at the origin whose bounds coincide
with its size box. -/
def touchA : EntityData := ⟨0, 0, some 50, ⟨50, 50, 0, 0⟩, true⟩

/-- Entity fixture: a 50 by 50 box whose left edge exactly touches the
right edge of touchA. -/
def touchB : EntityData := ⟨50, 0, some 50, ⟨50, 50, 0, 0⟩, true⟩

/-- Store mapping id 1 to touchA and every other id to touchB. -/
def touchStore : ℕ → EntityData := fun n => if n = 1 then touchA else touchB

/-- Player entity fixture for the engine-level claims: position (100,100),
size 64, the player bounds. -/
def engPlayer : EntityData := ⟨100, 100, some 64, ⟨40, 52, 12, 12⟩, true⟩

/-- Freshly placed frozen clone fixture: overlapping the player at
(110,110), bounds still disabled (boundsEnabled = false), as left by
handlePlaceAction during the grace period. -/
def freshClone : EntityData := ⟨110, 110, some 64, ⟨40, 52, 12, 12⟩, false⟩

/-- Store mapping id 1 to the player and every other id to the fresh
clone. -/
def graceStore : ℕ → EntityData := fun n => if n = 1 then engPlayer else freshClone

/-- Player state as built by the Player constructor: position (450,450),
zero velocity, the player bounds, airborne, facing right, mid-jump set,
timers zero, no active directions. -/
def playerInit : PlayerState ℚ :=
  { x := 450, y := 450, velocity := ⟨0, 0⟩, bounds := Player.playerBounds,
    physics := ⟨false⟩, facingDirection := Facing.right, isRunning := false,
    midJump := true, jumpKeyHeld := false, pastFrameOnGround := true,
    gravityTransitionTimer := 0, coyoteTimer := 0,
    activeDirections := ActiveDirections.none }

/-- Player state at the start of the overspeed scenario: velocity.x = 600,
no active directions, airborne history cleared. -/
def overspeedStart : PlayerState ℚ :=
  { playerInit with velocity := ⟨600, 0⟩, pastFrameOnGround := false }

/-- Store for the mid-sweep unregistration scenario: id 1 is the player at
the origin, ids 2 and 3 are coins at (10,10) and (20,20); all three
mutually overlap. -/
def midSweepStore : ℕ → EntityData := fun n =>
  if n = 1 then ⟨0, 0, some 64, ⟨40, 52, 12, 12⟩, true⟩
  else if n = 2 then ⟨10, 10, some 64, ⟨64, 64, 0, 0⟩, true⟩
  else ⟨20, 20, some 64, ⟨64, 64, 0, 0⟩, true⟩

/-- Result of the mid-sweep unregistration run: registry [1,2,3], the
player subscribed with callback 9 behaving as the coin handler (ids at
least 2 are coins), ample fuel. -/
def midSweepResult : CollisionEngine.SweepState :=
  CollisionEngine.checkCollisionsRun midSweepStore [(1, 9)]
    (CollisionEngine.coinHandlerApply (fun e => decide (2 ≤ e))) 20
    ⟨[1, 2, 3], 0, []⟩

/-- Platform geometry fixture with top edge at y = 500 spanning x in
[0,800]. -/
def floorPlatform : EntityGeom ℚ := ⟨0, 500, ⟨800, 50, 0, 0⟩⟩

/-- Player fixture overlapping the left edge of a wall platform so that
the x overlap is strictly smaller than the y overlap. -/
def sideHitPlayer : PlayerState ℚ :=
  { playerInit with
    x := 151, y := 300, velocity := ⟨120, 35⟩, physics := ⟨false⟩ }

/-- Wall platform fixture for the horizontal resolution witness: left
edge at x = 200, spanning y in [260, 460]. -/
def wallPlatform : EntityGeom ℚ := ⟨200, 260, ⟨100, 200, 0, 0⟩⟩

/-- Player fixture whose overlap depths against tiePlatform are exactly
equal on both axes. -/
def tiePlayer : PlayerState ℚ :=
  { playerInit with
    x := 151, y := 435, velocity := ⟨120, 35⟩, physics := ⟨false⟩ }

/-- Platform fixture for the tie-break witness. -/
def tiePlatform : EntityGeom ℚ := ⟨200, 496, ⟨300, 100, 0, 0⟩⟩

/-- Airborne player fixture about to leave the ground: grounded on the
previous frame, airborne now, used to arm the coyote timer. -/
def leavingGround : PlayerState ℚ :=
  { playerInit with
    physics := ⟨false⟩, pastFrameOnGround := true, velocity := ⟨0, 10⟩ }

/-- Real-valued player fixture coincident with the enemy fixture. -/
noncomputable def coincidentPlayer : PlayerState ℝ :=
  { x := 300, y := 200, velocity := ⟨25, -40⟩, bounds := ⟨40, 52, 12, 12⟩,
    physics := ⟨false⟩, facingDirection := Facing.right, isRunning := false,
    midJump := true, jumpKeyHeld := false, pastFrameOnGround := false,
    gravityTransitionTimer := 0, coyoteTimer := 0,
    activeDirections := ActiveDirections.none }

/-- Enemy fixture at the same position as coincidentPlayer, with the
default Enemy bounds new Bounds() = (0,0,0,0). -/
noncomputable def coincidentEnemy : EntityGeom ℝ := ⟨300, 200, ⟨0, 0, 0, 0⟩⟩

/-- Congruence for flatMap under pointwise equality on the list. -/
theorem List.flatMap_congr_mem {α β : Type} {l : List α} {f g : α → List β}
    (h : ∀ a ∈ l, f a = g a) : l.flatMap f = l.flatMap g := by
  induction l with
  | nil => rfl
  | cons a t ih =>
    simp only [List.flatMap_cons]
    rw [h a (List.mem_cons_self a t), ih fun x hx => h x (List.mem_cons_of_mem a hx)]

namespace CollisionEngine

/-- Both components of a sweep pair are registry members. -/
theorem sweepFrom_mem {l : List ℕ} {ab : ℕ × ℕ} (h : ab ∈ sweepFrom l) :
    ab.1 ∈ l ∧ ab.2 ∈ l := by
  induction l with
  | nil => simp [sweepFrom] at h
  | cons a t ih =>
    simp only [sweepFrom, List.mem_append, List.mem_map] at h
    rcases h with ⟨b, hb, rfl⟩ | h
    · exact ⟨List.mem_cons_self a t, List.mem_cons_of_mem a hb⟩
    · exact ⟨List.mem_cons_of_mem a (ih h).1, List.mem_cons_of_mem a (ih h).2⟩

/-- On a registry without duplicate ids every sweep pair has distinct
components. -/
theorem sweepFrom_ne {l : List ℕ} (hnd : l.Nodup) {ab : ℕ × ℕ}
    (h : ab ∈ sweepFrom l) : ab.1 ≠ ab.2 := by
  induction l with
  | nil => simp [sweepFrom] at h
  | cons a t ih =>
    simp only [sweepFrom, List.mem_append, List.mem_map] at h
    rcases List.nodup_cons.mp hnd with ⟨ha, ht⟩
    rcases h with ⟨b, hb, rfl⟩ | h
    · intro hab
      exact ha ((show a = b from hab) ▸ hb)
    · exact ih ht h

/-- For entities that carry a scalar size, isColliding is exactly the
closed square-box overlap test: separation requires a strict inequality,
so exactly touching edges count as colliding. -/
theorem isColliding_eq_specClosedOverlap {a b : EntityData} {sa sb : ℚ}
    (ha : a.size = some sa) (hb : b.size = some sb) :
    isColliding a b = specClosedOverlap a b sa sb := by
  simp only [isColliding, specClosedOverlap, jsAdd, jsLt, jsGt, ha, hb,
    Bool.not_or, ← decide_not, not_lt, Bool.and_assoc]

end CollisionEngine

/-- C1, counterexample: two entities whose collision boxes (both the
bounds boxes and the size boxes coincide here) exactly touch edge to edge
are reported as colliding, and the subscription callback for the first
one IS invoked by the sweep, contrary to the half-open reading of the
claim.  Bounds.intersects itself also reports the touching boxes as
intersecting. -/
theorem touching_pair_fires_callback :
    (touchA.bounds.getCollisionBox touchA.x touchA.y).x +
        (touchA.bounds.getCollisionBox touchA.x touchA.y).width =
      (touchB.bounds.getCollisionBox touchB.x touchB.y).x ∧
    Bounds.intersects touchA touchB = true ∧
    CollisionEngine.checkCollisionsLog touchStore [1, 2] [(1, 7)] =
      [(1, 7, 2)] := by
  refine ⟨?_, ?_, ?_⟩
  · norm_num [touchA, touchB, Bounds.getCollisionBox]
  · norm_num [Bounds.intersects, Bounds.getCollisionBox, touchA, touchB]
  · norm_num [CollisionEngine.checkCollisionsLog, CollisionEngine.sweepFrom,
      CollisionEngine.handleCollision, CollisionEngine.isColliding,
      jsAdd, jsLt, jsGt, touchStore, touchA, touchB]

/-- C1, amended: for every unordered pair i < j of registered entities,
checkCollisions tests AABB overlap with its own isColliding on the raw
entity position and scalar size fields (Bounds.intersects and the bounds
collision boxes are not consulted), and the test is closed: when every
registered entity carries a size, the sweep is exactly the sweep gated by
the closed square-box overlap test, under which boxes with exactly
touching edges DO count as overlapping, so callbacks DO fire for a
touching pair. -/
theorem checkCollisions_closed_size_box_refinement
    (store : ℕ → EntityData) (entities : List ℕ) (subs : List (ℕ × ℕ))
    (sz : ℕ → ℚ) (h : ∀ e ∈ entities, (store e).size = some (sz e)) :
    CollisionEngine.checkCollisionsLog store entities subs =
      (CollisionEngine.sweepFrom entities).flatMap fun p =>
        if specClosedOverlap (store p.1) (store p.2) (sz p.1) (sz p.2) then
          CollisionEngine.handleCollision subs p.1 p.2
        else [] := by
  unfold CollisionEngine.checkCollisionsLog
  refine List.flatMap_congr_mem fun ab hab => ?_
  obtain ⟨h1, h2⟩ := CollisionEngine.sweepFrom_mem hab
  rw [CollisionEngine.isColliding_eq_specClosedOverlap (h _ h1) (h _ h2)]

/-- Witness for the amended C1 theorem at the touching fixture. -/
theorem checkCollisions_closed_size_box_refinement_witness :
    CollisionEngine.checkCollisionsLog touchStore [1, 2] [(1, 7)] =
      (CollisionEngine.sweepFrom [1, 2]).flatMap fun p =>
        if specClosedOverlap (touchStore p.1) (touchStore p.2) 50 50 then
          CollisionEngine.handleCollision [(1, 7)] p.1 p.2
        else [] :=
  checkCollisions_closed_size_box_refinement touchStore [1, 2] [(1, 7)]
    (fun _ => 50) (by decide)

/-- C2: evaluation at the failing input, plus the reason it fails in
general.  A freshly placed frozen clone whose boundsEnabled flag is still
false during its grace period nevertheless triggers the player
subscription callback when the two overlap, because checkCollisions and
isColliding never read boundsEnabled: the invocation log of a sweep is
invariant under arbitrary changes of every boundsEnabled flag. -/
theorem boundsEnabled_ignored_by_checkCollisions :
    freshClone.boundsEnabled = false ∧
    CollisionEngine.checkCollisionsLog graceStore [1, 2] [(1, 3)] =
      [(1, 3, 2)] ∧
    (∀ (store : ℕ → EntityData) (f : ℕ → Bool) (entities : List ℕ)
      (subs : List (ℕ × ℕ)),
      CollisionEngine.checkCollisionsLog
          (fun e => { store e with boundsEnabled := f e }) entities subs =
        CollisionEngine.checkCollisionsLog store entities subs) := by
  refine ⟨rfl, ?_, fun _ _ _ _ => rfl⟩
  norm_num [CollisionEngine.checkCollisionsLog, CollisionEngine.sweepFrom,
    CollisionEngine.handleCollision, CollisionEngine.isColliding,
    jsAdd, jsLt, jsGt, graceStore, engPlayer, freshClone]

namespace Player

/-- The coyote step only writes the coyote timer and the mid-jump flag. -/
theorem coyoteStep_physics (dt : ℚ) (p : PlayerState ℚ) :
    (coyoteStep dt p).physics = p.physics := by
  unfold coyoteStep
  split_ifs <;> rfl

/-- The coyote step preserves the velocity. -/
theorem coyoteStep_velocity (dt : ℚ) (p : PlayerState ℚ) :
    (coyoteStep dt p).velocity = p.velocity := by
  unfold coyoteStep
  split_ifs <;> rfl

/-- The coyote step preserves the active-direction set. -/
theorem coyoteStep_activeDirections (dt : ℚ) (p : PlayerState ℚ) :
    (coyoteStep dt p).activeDirections = p.activeDirections := by
  unfold coyoteStep
  split_ifs <;> rfl

/-- The coyote step preserves the previous-frame grounded snapshot. -/
theorem coyoteStep_pastFrameOnGround (dt : ℚ) (p : PlayerState ℚ) :
    (coyoteStep dt p).pastFrameOnGround = p.pastFrameOnGround := by
  unfold coyoteStep
  split_ifs <;> rfl

/-- The friction step only writes the running flag and the horizontal
velocity. -/
theorem frictionStep_physics (p : PlayerState ℚ) :
    (frictionStep p).physics = p.physics := by
  simp only [frictionStep]
  split_ifs <;> rfl

/-- The friction step preserves the vertical velocity. -/
theorem frictionStep_velocityY (p : PlayerState ℚ) :
    (frictionStep p).velocity.y = p.velocity.y := by
  simp only [frictionStep]
  split_ifs <;> rfl

/-- The friction step preserves the active-direction set. -/
theorem frictionStep_activeDirections (p : PlayerState ℚ) :
    (frictionStep p).activeDirections = p.activeDirections := by
  simp only [frictionStep]
  split_ifs <;> rfl

/-- The friction step preserves the previous-frame grounded snapshot. -/
theorem frictionStep_pastFrameOnGround (p : PlayerState ℚ) :
    (frictionStep p).pastFrameOnGround = p.pastFrameOnGround := by
  simp only [frictionStep]
  split_ifs <;> rfl

/-- The friction step preserves the coyote timer. -/
theorem frictionStep_coyoteTimer (p : PlayerState ℚ) :
    (frictionStep p).coyoteTimer = p.coyoteTimer := by
  simp only [frictionStep]
  split_ifs <;> rfl

/-- The friction step preserves the jump-key flag. -/
theorem frictionStep_jumpKeyHeld (p : PlayerState ℚ) :
    (frictionStep p).jumpKeyHeld = p.jumpKeyHeld := by
  simp only [frictionStep]
  split_ifs <;> rfl

/-- With no horizontal direction in the active set, the input is not
valid, so the friction step multiplies the horizontal velocity by the
friction factor. -/
theorem frictionStep_velocityX_noInput (p : PlayerState ℚ)
    (hL : p.activeDirections.left = false)
    (hR : p.activeDirections.right = false) :
    (frictionStep p).velocity.x = p.velocity.x * frictionX := by
  simp [frictionStep, hL, hR]

/-- The gravity step only writes the blend timer and the vertical
velocity. -/
theorem gravityStep_physics (dt : ℚ) (p : PlayerState ℚ) :
    (gravityStep dt p).physics = p.physics := by
  simp only [gravityStep]
  split_ifs <;> rfl

/-- The gravity step preserves the horizontal velocity. -/
theorem gravityStep_velocityX (dt : ℚ) (p : PlayerState ℚ) :
    (gravityStep dt p).velocity.x = p.velocity.x := by
  simp only [gravityStep]
  split_ifs <;> rfl

/-- The gravity step preserves the active-direction set. -/
theorem gravityStep_activeDirections (dt : ℚ) (p : PlayerState ℚ) :
    (gravityStep dt p).activeDirections = p.activeDirections := by
  simp only [gravityStep]
  split_ifs <;> rfl

/-- The gravity step preserves the previous-frame grounded snapshot. -/
theorem gravityStep_pastFrameOnGround (dt : ℚ) (p : PlayerState ℚ) :
    (gravityStep dt p).pastFrameOnGround = p.pastFrameOnGround := by
  simp only [gravityStep]
  split_ifs <;> rfl

/-- The gravity step preserves the coyote timer. -/
theorem gravityStep_coyoteTimer (dt : ℚ) (p : PlayerState ℚ) :
    (gravityStep dt p).coyoteTimer = p.coyoteTimer := by
  simp only [gravityStep]
  split_ifs <;> rfl

/-- Every update tick ends with the grounded flag cleared: nothing after
the unconditional reset writes it. -/
theorem update_onGround_false (dt : ℚ) (p : PlayerState ℚ) :
    (update dt p).physics.onGround = false := by
  unfold update
  rw [show ∀ q : PlayerState ℚ, (integrateStep dt q).physics = q.physics
      from fun _ => rfl,
    show ∀ q : PlayerState ℚ, (clearInputStep q).physics = q.physics
      from fun _ => rfl,
    gravityStep_physics, frictionStep_physics]
  rfl

/-- Every update tick records the grounded flag of the tick entry in
pastFrameOnGround before clearing it. -/
theorem update_pastFrameOnGround (dt : ℚ) (p : PlayerState ℚ) :
    (update dt p).pastFrameOnGround = p.physics.onGround := by
  unfold update
  rw [show ∀ q : PlayerState ℚ,
        (integrateStep dt q).pastFrameOnGround = q.pastFrameOnGround
      from fun _ => rfl,
    show ∀ q : PlayerState ℚ,
        (clearInputStep q).pastFrameOnGround = q.pastFrameOnGround
      from fun _ => rfl,
    gravityStep_pastFrameOnGround, frictionStep_pastFrameOnGround]
  rw [show ∀ q : PlayerState ℚ,
        (groundResetStep q).pastFrameOnGround = q.physics.onGround
      from fun _ => rfl]
  rw [coyoteStep_physics]

/-- Every update tick ends with the active-direction set cleared. -/
theorem update_activeDirections (dt : ℚ) (p : PlayerState ℚ) :
    (update dt p).activeDirections = ActiveDirections.none := by
  unfold update
  rfl

/-- With no horizontal direction active the tick multiplies the
horizontal velocity by the friction factor and nothing else touches
it. -/
theorem update_velocityX_friction (dt : ℚ) (p : PlayerState ℚ)
    (hL : p.activeDirections.left = false)
    (hR : p.activeDirections.right = false) :
    (update dt p).velocity.x = p.velocity.x * frictionX := by
  unfold update
  rw [show ∀ q : PlayerState ℚ, (integrateStep dt q).velocity = q.velocity
      from fun _ => rfl,
    show ∀ q : PlayerState ℚ, (clearInputStep q).velocity = q.velocity
      from fun _ => rfl,
    gravityStep_velocityX, frictionStep_velocityX_noInput]
  · rw [show ∀ q : PlayerState ℚ, (groundResetStep q).velocity = q.velocity
        from fun _ => rfl,
      coyoteStep_velocity]
  · rw [show ∀ q : PlayerState ℚ,
          (groundResetStep q).activeDirections = q.activeDirections
        from fun _ => rfl,
      coyoteStep_activeDirections]
    exact hL
  · rw [show ∀ q : PlayerState ℚ,
          (groundResetStep q).activeDirections = q.activeDirections
        from fun _ => rfl,
      coyoteStep_activeDirections]
    exact hR

end Player

/-- C3, counterexample: a player entering a tick with velocity.x = 600 and
no direction input leaves Player.update with velocity.x = 510, whose
absolute value exceeds maxSpeed = 500: the claimed clamp during
integration does not happen. -/
theorem overspeed_survives_update :
    (Player.update (1 / 60) overspeedStart).velocity.x = 510 ∧
    ¬(|(Player.update (1 / 60) overspeedStart).velocity.x| ≤ 500) := by
  have h : (Player.update (1 / 60) overspeedStart).velocity.x = 510 := by
    rw [Player.update_velocityX_friction (1 / 60) overspeedStart rfl rfl]
    norm_num [overspeedStart, playerInit, Player.frictionX]
  refine ⟨h, ?_⟩
  rw [h]
  norm_num

/-- C3, amended: starting a tick with velocity.x = 600 and maxSpeed = 500,
one Player.update tick with no direction input only multiplies velocity.x
by the friction factor 0.85, yielding 510, so the bound 500 may still be
exceeded after the tick: the clamp to maxSpeed runs only when input is
applied (applyInput), never during integration. -/
theorem update_no_input_friction_only (dt : ℚ) (p : PlayerState ℚ)
    (hL : p.activeDirections.left = false)
    (hR : p.activeDirections.right = false) :
    (Player.update dt p).velocity.x = p.velocity.x * Player.frictionX :=
  Player.update_velocityX_friction dt p hL hR

/-- Witness for the amended C3 theorem at the overspeed fixture. -/
theorem update_no_input_friction_only_witness :
    (Player.update (1 / 60) overspeedStart).velocity.x =
      overspeedStart.velocity.x * Player.frictionX :=
  update_no_input_friction_only (1 / 60) overspeedStart rfl rfl

/-- C4: the grounded invariant.  Player.update records the previous
grounded flag in pastFrameOnGround and unconditionally clears the
grounded flag, and nothing later in the tick restores it, so integration
ends airborne; the horizontal branch of static resolution leaves the
grounded flag untouched, a grounded flag raised by static resolution can
only come from the vertical branch, and applyInput never raises it. -/
theorem grounded_reset_invariant :
    (∀ (dt : ℚ) (p : PlayerState ℚ),
      (Player.update dt p).physics.onGround = false ∧
      (Player.update dt p).pastFrameOnGround = p.physics.onGround) ∧
    (∀ (q : PlayerState ℚ) (e : EntityGeom ℚ),
      GameModel.overlapX q e < GameModel.overlapY q e →
      (GameModel.handleStaticCollision q e).physics.onGround =
        q.physics.onGround) ∧
    (∀ (q : PlayerState ℚ) (e : EntityGeom ℚ),
      q.physics.onGround = false →
      (GameModel.handleStaticCollision q e).physics.onGround = true →
      GameModel.overlapY q e ≤ GameModel.overlapX q e) ∧
    (∀ (d : Direction) (dt : ℚ) (q : PlayerState ℚ),
      q.physics.onGround = false →
      (Player.applyInput d dt q).physics.onGround = false) := by
  refine ⟨fun dt p => ⟨Player.update_onGround_false dt p,
    Player.update_pastFrameOnGround dt p⟩, ?_, ?_, ?_⟩
  · intro q e h
    simp only [GameModel.handleStaticCollision, if_pos h]
    split_ifs <;> rfl
  · intro q e hq hres
    by_contra hlt
    rw [not_le] at hlt
    have heq : (GameModel.handleStaticCollision q e).physics.onGround =
        q.physics.onGround := by
      simp only [GameModel.handleStaticCollision, if_pos hlt]
      split_ifs <;> rfl
    rw [heq, hq] at hres
    exact Bool.false_ne_true hres
  · intro d dt q hq
    cases d <;>
      simp only [Player.applyInput] <;>
      split_ifs <;>
      simp_all

/-- Witness for the grounded invariant at concrete fixtures: an update
tick from the initial player state, a horizontal resolution that keeps
the airborne flag, a vertical tie resolution that raises it, and an
airborne jump input that leaves it false. -/
theorem grounded_reset_invariant_witness :
    (Player.update (1 / 60) playerInit).physics.onGround = false ∧
    GameModel.overlapX sideHitPlayer wallPlatform <
      GameModel.overlapY sideHitPlayer wallPlatform ∧
    (GameModel.handleStaticCollision sideHitPlayer
        wallPlatform).physics.onGround = sideHitPlayer.physics.onGround ∧
    tiePlayer.physics.onGround = false ∧
    (GameModel.handleStaticCollision tiePlayer
        tiePlatform).physics.onGround = true ∧
    GameModel.overlapY tiePlayer tiePlatform ≤
      GameModel.overlapX tiePlayer tiePlatform ∧
    (Player.applyInput Direction.up (1 / 60)
        playerInit).physics.onGround = false := by
  have hOv : GameModel.overlapX sideHitPlayer wallPlatform <
      GameModel.overlapY sideHitPlayer wallPlatform := by
    norm_num [GameModel.overlapX, GameModel.overlapY, Bounds.getCollisionBox,
      sideHitPlayer, wallPlatform, playerInit, Player.playerBounds]
  have hTrue : (GameModel.handleStaticCollision tiePlayer
      tiePlatform).physics.onGround = true := by
    norm_num [GameModel.handleStaticCollision, GameModel.overlapX,
      GameModel.overlapY, Bounds.getCollisionBox, tiePlayer, tiePlatform,
      playerInit, Player.playerBounds]
  exact ⟨(grounded_reset_invariant.1 (1 / 60) playerInit).1, hOv,
    grounded_reset_invariant.2.1 sideHitPlayer wallPlatform hOv, rfl, hTrue,
    grounded_reset_invariant.2.2.1 tiePlayer tiePlatform rfl hTrue,
    grounded_reset_invariant.2.2.2 Direction.up (1 / 60) playerInit rfl⟩

/-- C5: minimum-translation resolution.  With the x overlap strictly
smaller than the y overlap, handleStaticCollision snaps only the x
coordinate to the near edge of the platform and zeroes only the
horizontal velocity, leaving y, the vertical velocity and the grounded
flag untouched; with the two overlap depths exactly equal the vertical
branch runs: x and the horizontal velocity are untouched, the vertical
velocity is zeroed, and when resolving from above the player is snapped
on top and the grounded flag is raised. -/
theorem static_resolution_min_translation (p : PlayerState ℚ)
    (e : EntityGeom ℚ) :
    (GameModel.overlapX p e < GameModel.overlapY p e →
      (GameModel.handleStaticCollision p e).x =
        (if (p.bounds.getCollisionBox p.x p.y).x <
            (e.bounds.getCollisionBox e.x e.y).x then
          (e.bounds.getCollisionBox e.x e.y).x -
            (p.bounds.getCollisionBox p.x p.y).width - p.bounds.offsetX
        else
          (e.bounds.getCollisionBox e.x e.y).x +
            (e.bounds.getCollisionBox e.x e.y).width - p.bounds.offsetX) ∧
      (GameModel.handleStaticCollision p e).velocity.x = 0 ∧
      (GameModel.handleStaticCollision p e).y = p.y ∧
      (GameModel.handleStaticCollision p e).velocity.y = p.velocity.y ∧
      (GameModel.handleStaticCollision p e).physics.onGround =
        p.physics.onGround) ∧
    (GameModel.overlapX p e = GameModel.overlapY p e →
      (GameModel.handleStaticCollision p e).x = p.x ∧
      (GameModel.handleStaticCollision p e).velocity.x = p.velocity.x ∧
      (GameModel.handleStaticCollision p e).velocity.y = 0 ∧
      ((p.bounds.getCollisionBox p.x p.y).y <
          (e.bounds.getCollisionBox e.x e.y).y →
        (GameModel.handleStaticCollision p e).physics.onGround = true ∧
        (GameModel.handleStaticCollision p e).y =
          (e.bounds.getCollisionBox e.x e.y).y -
            (p.bounds.getCollisionBox p.x p.y).height - p.bounds.offsetY)) := by
  constructor
  · intro h
    simp only [GameModel.handleStaticCollision, if_pos h]
    split_ifs <;> simp
  · intro h
    have hnlt : ¬(GameModel.overlapX p e < GameModel.overlapY p e) := by
      rw [h]
      exact lt_irrefl _
    simp only [GameModel.handleStaticCollision, if_neg hnlt]
    by_cases hy : (p.bounds.getCollisionBox p.x p.y).y <
        (e.bounds.getCollisionBox e.x e.y).y
    · simp only [if_pos hy]
      simp
    · simp only [if_neg hy]
      simp [hy]

/-- Witness for minimum-translation resolution: a concrete side hit with
x overlap 3 against y overlap 104, and a concrete tie with both overlap
depths equal to 3 resolving from above. -/
theorem static_resolution_min_translation_witness :
    GameModel.overlapX sideHitPlayer wallPlatform <
      GameModel.overlapY sideHitPlayer wallPlatform ∧
    ((GameModel.handleStaticCollision sideHitPlayer wallPlatform).x =
        (if (sideHitPlayer.bounds.getCollisionBox sideHitPlayer.x
              sideHitPlayer.y).x <
            (wallPlatform.bounds.getCollisionBox wallPlatform.x
              wallPlatform.y).x then
          (wallPlatform.bounds.getCollisionBox wallPlatform.x
              wallPlatform.y).x -
            (sideHitPlayer.bounds.getCollisionBox sideHitPlayer.x
              sideHitPlayer.y).width - sideHitPlayer.bounds.offsetX
        else
          (wallPlatform.bounds.getCollisionBox wallPlatform.x
              wallPlatform.y).x +
            (wallPlatform.bounds.getCollisionBox wallPlatform.x
              wallPlatform.y).width - sideHitPlayer.bounds.offsetX) ∧
      (GameModel.handleStaticCollision sideHitPlayer
          wallPlatform).velocity.x = 0 ∧
      (GameModel.handleStaticCollision sideHitPlayer wallPlatform).y =
        sideHitPlayer.y ∧
      (GameModel.handleStaticCollision sideHitPlayer
          wallPlatform).velocity.y = sideHitPlayer.velocity.y ∧
      (GameModel.handleStaticCollision sideHitPlayer
          wallPlatform).physics.onGround = sideHitPlayer.physics.onGround) ∧
    GameModel.overlapX tiePlayer tiePlatform =
      GameModel.overlapY tiePlayer tiePlatform ∧
    ((GameModel.handleStaticCollision tiePlayer tiePlatform).x =
        tiePlayer.x ∧
      (GameModel.handleStaticCollision tiePlayer tiePlatform).velocity.x =
        tiePlayer.velocity.x ∧
      (GameModel.handleStaticCollision tiePlayer tiePlatform).velocity.y =
        0 ∧
      ((tiePlayer.bounds.getCollisionBox tiePlayer.x tiePlayer.y).y <
          (tiePlatform.bounds.getCollisionBox tiePlatform.x tiePlatform.y).y →
        (GameModel.handleStaticCollision tiePlayer
            tiePlatform).physics.onGround = true ∧
        (GameModel.handleStaticCollision tiePlayer tiePlatform).y =
          (tiePlatform.bounds.getCollisionBox tiePlatform.x
              tiePlatform.y).y -
            (tiePlayer.bounds.getCollisionBox tiePlayer.x
              tiePlayer.y).height - tiePlayer.bounds.offsetY)) := by
  have h1 : GameModel.overlapX sideHitPlayer wallPlatform <
      GameModel.overlapY sideHitPlayer wallPlatform := by
    norm_num [GameModel.overlapX, GameModel.overlapY, Bounds.getCollisionBox,
      sideHitPlayer, wallPlatform, playerInit, Player.playerBounds]
  have h2 : GameModel.overlapX tiePlayer tiePlatform =
      GameModel.overlapY tiePlayer tiePlatform := by
    norm_num [GameModel.overlapX, GameModel.overlapY, Bounds.getCollisionBox,
      tiePlayer, tiePlatform, playerInit, Player.playerBounds]
  exact ⟨h1, (static_resolution_min_translation sideHitPlayer wallPlatform).1
      h1, h2,
    (static_resolution_min_translation tiePlayer tiePlatform).2 h2⟩

namespace Player

/-- On the tick that leaves the ground (grounded last frame, airborne
now) the coyote step arms the timer to the full coyote window. -/
theorem coyoteStep_arm (dt : ℚ) (p : PlayerState ℚ)
    (hg : p.physics.onGround = false) (hp : p.pastFrameOnGround = true) :
    (coyoteStep dt p).coyoteTimer = coyoteTime := by
  simp [coyoteStep, hg, hp]

/-- On a tick airborne both frames the coyote step decays the timer by
the frame delta, clamped at zero. -/
theorem coyoteStep_decay (dt : ℚ) (p : PlayerState ℚ)
    (hg : p.physics.onGround = false) (hp : p.pastFrameOnGround = false) :
    (coyoteStep dt p).coyoteTimer = max 0 (p.coyoteTimer - dt) := by
  simp [coyoteStep, hg, hp]

/-- Update-level arming: a tick entered grounded-last-frame and airborne
leaves the coyote timer at the full window. -/
theorem update_coyoteTimer_arm (dt : ℚ) (p : PlayerState ℚ)
    (hg : p.physics.onGround = false) (hp : p.pastFrameOnGround = true) :
    (update dt p).coyoteTimer = coyoteTime := by
  unfold update
  rw [show ∀ q : PlayerState ℚ, (integrateStep dt q).coyoteTimer = q.coyoteTimer
      from fun _ => rfl,
    show ∀ q : PlayerState ℚ, (clearInputStep q).coyoteTimer = q.coyoteTimer
      from fun _ => rfl,
    gravityStep_coyoteTimer, frictionStep_coyoteTimer,
    show ∀ q : PlayerState ℚ, (groundResetStep q).coyoteTimer = q.coyoteTimer
      from fun _ => rfl,
    coyoteStep_arm dt p hg hp]

/-- Update-level decay: a tick airborne both frames decays the coyote
timer by the frame delta, clamped at zero. -/
theorem update_coyoteTimer_decay (dt : ℚ) (p : PlayerState ℚ)
    (hg : p.physics.onGround = false) (hp : p.pastFrameOnGround = false) :
    (update dt p).coyoteTimer = max 0 (p.coyoteTimer - dt) := by
  unfold update
  rw [show ∀ q : PlayerState ℚ, (integrateStep dt q).coyoteTimer = q.coyoteTimer
      from fun _ => rfl,
    show ∀ q : PlayerState ℚ, (clearInputStep q).coyoteTimer = q.coyoteTimer
      from fun _ => rfl,
    gravityStep_coyoteTimer, frictionStep_coyoteTimer,
    show ∀ q : PlayerState ℚ, (groundResetStep q).coyoteTimer = q.coyoteTimer
      from fun _ => rfl,
    coyoteStep_decay dt p hg hp]

/-- Clamped subtraction composes over two steps when the second step is
nonnegative. -/
theorem max_zero_sub_step (x s : ℚ) (hs : 0 ≤ s) :
    max 0 (max 0 x - s) = max 0 (x - s) := by
  rcases le_total x 0 with hx | hx
  · rw [max_eq_left hx, max_eq_left, max_eq_left] <;> linarith
  · rw [max_eq_right hx]

/-- Airborne run: starting airborne with airborne history and a
nonnegative coyote timer, a sequence of ticks with nonnegative deltas
keeps the player airborne and leaves the coyote timer at the initial
value minus the elapsed time, clamped at zero. -/
theorem updateSeq_airborne (dts : List ℚ) (p : PlayerState ℚ)
    (hg : p.physics.onGround = false) (hp : p.pastFrameOnGround = false)
    (hc : 0 ≤ p.coyoteTimer) (hd : ∀ d ∈ dts, 0 ≤ d) :
    (updateSeq dts p).coyoteTimer = max 0 (p.coyoteTimer - dts.sum) ∧
    (updateSeq dts p).physics.onGround = false := by
  induction dts generalizing p with
  | nil =>
    refine ⟨?_, hg⟩
    simp [updateSeq, max_eq_right hc]
  | cons d ds ih =>
    have hdd : 0 ≤ d := hd d (List.mem_cons_self d ds)
    have hds : ∀ x ∈ ds, 0 ≤ x := fun x hx => hd x (List.mem_cons_of_mem d hx)
    have hstep : (update d p).coyoteTimer = max 0 (p.coyoteTimer - d) :=
      update_coyoteTimer_decay d p hg hp
    have h1 : (update d p).physics.onGround = false :=
      update_onGround_false d p
    have h2 : (update d p).pastFrameOnGround = false := by
      rw [update_pastFrameOnGround d p, hg]
    have h3 : 0 ≤ (update d p).coyoteTimer := by
      rw [hstep]
      exact le_max_left 0 _
    have := ih (update d p) h1 h2 h3 hds
    refine ⟨?_, ?_⟩
    · have hrw : updateSeq (d :: ds) p = updateSeq ds (update d p) := rfl
      rw [hrw, this.1, hstep, max_zero_sub_step _ _ (List.sum_nonneg hds),
        List.sum_cons]
      ring_nf
    · exact this.2
end Player

namespace Player

/-- A jump input fires when grounded or when the coyote timer is
positive: the vertical velocity becomes the jump velocity, the player is
forced airborne and the coyote timer is consumed. -/
theorem applyInput_up_jump (dt : ℚ) (q : PlayerState ℚ)
    (h : q.physics.onGround = true ∨ 0 < q.coyoteTimer) :
    (applyInput Direction.up dt q).velocity.y = jumpVelocity ∧
    (applyInput Direction.up dt q).physics.onGround = false ∧
    (applyInput Direction.up dt q).coyoteTimer = 0 := by
  have hcond : (q.physics.onGround || decide (q.coyoteTimer > 0)) = true := by
    rcases h with h | h
    · simp [h]
    · simp [h]
  simp only [applyInput, hcond]
  split_ifs <;> simp_all

/-- A jump input while airborne with an exhausted coyote timer leaves the
vertical velocity unchanged. -/
theorem applyInput_up_noJump (dt : ℚ) (q : PlayerState ℚ)
    (hg : q.physics.onGround = false) (hc : q.coyoteTimer ≤ 0) :
    (applyInput Direction.up dt q).velocity.y = q.velocity.y := by
  have hcond : (q.physics.onGround || decide (q.coyoteTimer > 0)) = false := by
    simp [hg, decide_eq_false_iff_not, not_lt, hc]
  simp only [applyInput, hcond]
  split_ifs <;> simp_all

end Player

/-- C6: the coyote window.  Take a player that has just left a grounded
state (grounded on the previous frame, airborne now, so the next update
arms the coyote timer), run the arming tick and then any sequence of
airborne ticks with nonnegative deltas and no landing.  A jump input
then succeeds - vertical velocity set to jumpVelocity, airborne forced,
coyote timer consumed - exactly when the airborne time elapsed since the
arming tick is strictly below coyoteTime; once the window has decayed to
zero the jump input leaves the vertical velocity unchanged. -/
theorem coyote_jump_window (p : PlayerState ℚ) (dt0 dtI : ℚ) (dts : List ℚ)
    (hg : p.physics.onGround = false) (hp : p.pastFrameOnGround = true)
    (hd : ∀ d ∈ dts, 0 ≤ d) :
    (dts.sum < Player.coyoteTime →
      (Player.applyInput Direction.up dtI
          (Player.updateSeq dts (Player.update dt0 p))).velocity.y =
        Player.jumpVelocity ∧
      (Player.applyInput Direction.up dtI
          (Player.updateSeq dts (Player.update dt0 p))).physics.onGround =
        false ∧
      (Player.applyInput Direction.up dtI
          (Player.updateSeq dts (Player.update dt0 p))).coyoteTimer = 0) ∧
    (Player.coyoteTime ≤ dts.sum →
      (Player.applyInput Direction.up dtI
          (Player.updateSeq dts (Player.update dt0 p))).velocity.y =
        (Player.updateSeq dts (Player.update dt0 p)).velocity.y) := by
  have h1 : (Player.update dt0 p).physics.onGround = false :=
    Player.update_onGround_false dt0 p
  have h2 : (Player.update dt0 p).pastFrameOnGround = false := by
    rw [Player.update_pastFrameOnGround dt0 p, hg]
  have h3 : (Player.update dt0 p).coyoteTimer = Player.coyoteTime :=
    Player.update_coyoteTimer_arm dt0 p hg hp
  obtain ⟨hct, hog⟩ := Player.updateSeq_airborne dts (Player.update dt0 p)
    h1 h2 (by rw [h3]; norm_num [Player.coyoteTime]) hd
  rw [h3] at hct
  constructor
  · intro hlt
    have hpos : 0 < (Player.updateSeq dts
        (Player.update dt0 p)).coyoteTimer := by
      rw [hct]
      have hx : 0 < Player.coyoteTime - dts.sum := by linarith
      rw [max_eq_right hx.le]
      exact hx
    exact Player.applyInput_up_jump dtI _ (Or.inr hpos)
  · intro hge
    have hzero : (Player.updateSeq dts
        (Player.update dt0 p)).coyoteTimer ≤ 0 := by
      rw [hct]
      have hx : Player.coyoteTime - dts.sum ≤ 0 := by linarith
      rw [max_eq_left hx]
    exact Player.applyInput_up_noJump dtI _ hog hzero

/-- Witness for the coyote window at concrete inputs: after 0.2 seconds
airborne (two ticks of 0.1) the jump still fires, and after 1 second
airborne (two ticks of 0.5, past the 0.75 window) it no longer changes
the vertical velocity. -/
theorem coyote_jump_window_witness :
    leavingGround.physics.onGround = false ∧
    leavingGround.pastFrameOnGround = true ∧
    ([(1 : ℚ) / 10, 1 / 10].sum < Player.coyoteTime ∧
      (Player.applyInput Direction.up (1 / 60)
          (Player.updateSeq [(1 : ℚ) / 10, 1 / 10]
            (Player.update (1 / 60) leavingGround))).velocity.y =
        Player.jumpVelocity) ∧
    (Player.coyoteTime ≤ [(1 : ℚ) / 2, 1 / 2].sum ∧
      (Player.applyInput Direction.up (1 / 60)
          (Player.updateSeq [(1 : ℚ) / 2, 1 / 2]
            (Player.update (1 / 60) leavingGround))).velocity.y =
        (Player.updateSeq [(1 : ℚ) / 2, 1 / 2]
            (Player.update (1 / 60) leavingGround)).velocity.y) := by
  have hlt : [(1 : ℚ) / 10, 1 / 10].sum < Player.coyoteTime := by
    norm_num [Player.coyoteTime]
  have hge : Player.coyoteTime ≤ [(1 : ℚ) / 2, 1 / 2].sum := by
    norm_num [Player.coyoteTime]
  refine ⟨rfl, rfl, ⟨hlt, ?_⟩, ⟨hge, ?_⟩⟩
  · exact ((coyote_jump_window leavingGround (1 / 60) (1 / 60)
      [(1 : ℚ) / 10, 1 / 10] rfl rfl (by norm_num)).1 hlt).1
  · exact (coyote_jump_window leavingGround (1 / 60) (1 / 60)
      [(1 : ℚ) / 2, 1 / 2] rfl rfl (by norm_num)).2 hge

/-- C9: friction decay.  With no horizontal direction held, every update
tick multiplies velocity.x by the friction factor, so after N ticks the
horizontal velocity is the initial one times frictionX to the N; the
magnitude decays monotonically toward zero and the sign never reverses
from decay alone. -/
theorem friction_decay_no_reversal (p : PlayerState ℚ) (dts : List ℚ)
    (hL : p.activeDirections.left = false)
    (hR : p.activeDirections.right = false) :
    (∀ d : ℚ, (Player.update d p).velocity.x =
      p.velocity.x * Player.frictionX) ∧
    (Player.updateSeq dts p).velocity.x =
      p.velocity.x * Player.frictionX ^ dts.length ∧
    (∀ n : ℕ, |p.velocity.x * Player.frictionX ^ (n + 1)| ≤
      |p.velocity.x * Player.frictionX ^ n|) ∧
    (∀ n : ℕ, 0 < p.velocity.x → 0 < p.velocity.x * Player.frictionX ^ n) ∧
    (∀ n : ℕ, p.velocity.x < 0 → p.velocity.x * Player.frictionX ^ n < 0) := by
  have hfpos : (0 : ℚ) < Player.frictionX := by norm_num [Player.frictionX]
  refine ⟨fun d => Player.update_velocityX_friction d p hL hR, ?_, ?_, ?_, ?_⟩
  · induction dts generalizing p with
    | nil => simp [Player.updateSeq]
    | cons d ds ih =>
      have hrw : Player.updateSeq (d :: ds) p =
          Player.updateSeq ds (Player.update d p) := rfl
      have hL2 : (Player.update d p).activeDirections.left = false := by
        rw [Player.update_activeDirections]
        rfl
      have hR2 : (Player.update d p).activeDirections.right = false := by
        rw [Player.update_activeDirections]
        rfl
      rw [hrw, ih (Player.update d p) hL2 hR2,
        Player.update_velocityX_friction d p hL hR, List.length_cons]
      ring
  · intro n
    have hrw : p.velocity.x * Player.frictionX ^ (n + 1) =
        p.velocity.x * Player.frictionX ^ n * Player.frictionX := by
      ring
    rw [hrw, abs_mul]
    have h1 : |Player.frictionX| ≤ 1 := by
      rw [abs_of_pos hfpos]
      norm_num [Player.frictionX]
    calc |p.velocity.x * Player.frictionX ^ n| * |Player.frictionX| ≤
        |p.velocity.x * Player.frictionX ^ n| * 1 :=
          mul_le_mul_of_nonneg_left h1 (abs_nonneg _)
      _ = |p.velocity.x * Player.frictionX ^ n| := mul_one _
  · exact fun n h => mul_pos h (pow_pos hfpos n)
  · exact fun n h => mul_neg_of_neg_of_pos h (pow_pos hfpos n)

/-- Witness for friction decay at the overspeed fixture: two ticks scale
600 by 0.85 twice, one-tick decay does not increase the magnitude, and
the sign stays positive. -/
theorem friction_decay_no_reversal_witness :
    (Player.update (1 / 60) overspeedStart).velocity.x =
      overspeedStart.velocity.x * Player.frictionX ∧
    (Player.updateSeq [(1 : ℚ) / 60, 1 / 60] overspeedStart).velocity.x =
      overspeedStart.velocity.x * Player.frictionX ^ 2 ∧
    |overspeedStart.velocity.x * Player.frictionX ^ (0 + 1)| ≤
      |overspeedStart.velocity.x * Player.frictionX ^ 0| ∧
    0 < overspeedStart.velocity.x * Player.frictionX ^ 2 := by
  have h := friction_decay_no_reversal overspeedStart
    [(1 : ℚ) / 60, 1 / 60] rfl rfl
  exact ⟨h.1 (1 / 60), h.2.1, h.2.2.1 0,
    h.2.2.2.1 2 (by norm_num [overspeedStart, playerInit])⟩

namespace CollisionEngine

/-- Inversion for handleCollision membership: every emitted invocation
comes from a subscription whose entity is one of the pair, and its
argument is the other member of the pair. -/
theorem handleCollision_mem {subs : List (ℕ × ℕ)} {a b e c x : ℕ}
    (h : (e, c, x) ∈ handleCollision subs a b) :
    (e, c) ∈ subs ∧ ((e = a ∧ x = b) ∨ (e = b ∧ x = a)) := by
  unfold handleCollision at h
  rw [List.mem_flatMap] at h
  obtain ⟨s, hs, hmem⟩ := h
  rw [List.mem_append] at hmem
  rcases hmem with hm | hm
  · by_cases h1 : s.1 = a
    · rw [if_pos h1] at hm
      simp only [List.mem_singleton, Prod.mk.injEq] at hm
      obtain ⟨he, hc, hx⟩ := hm
      subst he
      subst hc
      subst hx
      exact ⟨hs, Or.inl ⟨h1, rfl⟩⟩
    · rw [if_neg h1] at hm
      exact absurd hm (List.not_mem_nil _)
  · by_cases h1 : s.1 = b
    · rw [if_pos h1] at hm
      simp only [List.mem_singleton, Prod.mk.injEq] at hm
      obtain ⟨he, hc, hx⟩ := hm
      subst he
      subst hc
      subst hx
      exact ⟨hs, Or.inr ⟨h1, rfl⟩⟩
    · rw [if_neg h1] at hm
      exact absurd hm (List.not_mem_nil _)

/-- Introduction for handleCollision membership on the first branch. -/
theorem handleCollision_mem_left {subs : List (ℕ × ℕ)} {a b c : ℕ}
    (h : (a, c) ∈ subs) : (a, c, b) ∈ handleCollision subs a b := by
  unfold handleCollision
  rw [List.mem_flatMap]
  exact ⟨(a, c), h, by simp⟩

/-- Introduction for handleCollision membership on the second branch. -/
theorem handleCollision_mem_right {subs : List (ℕ × ℕ)} {a b c : ℕ}
    (h : (b, c) ∈ subs) : (b, c, a) ∈ handleCollision subs a b := by
  unfold handleCollision
  rw [List.mem_flatMap]
  exact ⟨(b, c), h, by simp⟩

/-- Every invocation of a colliding sweep pair lands in the sweep log. -/
theorem checkCollisionsLog_mem_of {store : ℕ → EntityData}
    {entities : List ℕ} {subs : List (ℕ × ℕ)} {a b : ℕ}
    {entry : ℕ × ℕ × ℕ} (hmem : (a, b) ∈ sweepFrom entities)
    (hcol : isColliding (store a) (store b) = true)
    (h : entry ∈ handleCollision subs a b) :
    entry ∈ checkCollisionsLog store entities subs := by
  unfold checkCollisionsLog
  rw [List.mem_flatMap]
  refine ⟨(a, b), hmem, ?_⟩
  simp only [hcol, if_true]
  exact h

/-- Inversion for the sweep log: every entry comes from some colliding
sweep pair. -/
theorem checkCollisionsLog_mem {store : ℕ → EntityData}
    {entities : List ℕ} {subs : List (ℕ × ℕ)} {entry : ℕ × ℕ × ℕ}
    (h : entry ∈ checkCollisionsLog store entities subs) :
    ∃ ab : ℕ × ℕ, ab ∈ sweepFrom entities ∧
      isColliding (store ab.1) (store ab.2) = true ∧
      entry ∈ handleCollision subs ab.1 ab.2 := by
  unfold checkCollisionsLog at h
  rw [List.mem_flatMap] at h
  obtain ⟨ab, hab, hmem⟩ := h
  by_cases hcol : isColliding (store ab.1) (store ab.2) = true
  · rw [if_pos hcol] at hmem
    exact ⟨ab, hab, hcol, hmem⟩
  · rw [if_neg hcol] at hmem
    exact absurd hmem (List.not_mem_nil _)

end CollisionEngine

/-- C7, counterexample: with the same entity registered twice (ids may
repeat in the registry, as happens to the player re-registered on each
level load), the self pair passes the overlap test and the subscriber of
that entity is invoked with its OWN entity as the counterpart argument,
twice. -/
theorem duplicate_registration_self_callback :
    ((1 : ℕ), (5 : ℕ)) ∈ [((1 : ℕ), (5 : ℕ))] ∧
    CollisionEngine.checkCollisionsLog (fun _ => touchA) [1, 1] [(1, 5)] =
      [(1, 5, 1), (1, 5, 1)] := by
  constructor
  · simp
  · norm_num [CollisionEngine.checkCollisionsLog, CollisionEngine.sweepFrom,
      CollisionEngine.handleCollision, CollisionEngine.isColliding,
      jsAdd, jsLt, jsGt, touchA]

/-- C7, amended: within one checkCollisions call, when the sweep visits
an overlapping pair (a, b), every subscription for a is invoked with b
and every subscription for b is invoked with a; an invocation produced by
a pair of two distinct entities never hands a subscriber its own entity,
and on a duplicate-free registry no subscriber is ever invoked with its
own entity; but when the same entity occupies two registry slots its
self pair does invoke its subscribers with the entity itself. -/
theorem collision_dispatch_symmetry (store : ℕ → EntityData)
    (entities : List ℕ) (subs : List (ℕ × ℕ)) (a b : ℕ)
    (hmem : (a, b) ∈ CollisionEngine.sweepFrom entities)
    (hcol : CollisionEngine.isColliding (store a) (store b) = true) :
    (∀ c : ℕ, (a, c) ∈ subs →
      (a, c, b) ∈ CollisionEngine.checkCollisionsLog store entities subs) ∧
    (∀ c : ℕ, (b, c) ∈ subs →
      (b, c, a) ∈ CollisionEngine.checkCollisionsLog store entities subs) ∧
    (a ≠ b → ∀ e c x : ℕ,
      (e, c, x) ∈ CollisionEngine.handleCollision subs a b → x ≠ e) ∧
    (entities.Nodup → ∀ e c x : ℕ,
      (e, c, x) ∈ CollisionEngine.checkCollisionsLog store entities subs →
      x ≠ e) := by
  refine ⟨?_, ?_, ?_, ?_⟩
  · intro c hc
    exact CollisionEngine.checkCollisionsLog_mem_of hmem hcol
      (CollisionEngine.handleCollision_mem_left hc)
  · intro c hc
    exact CollisionEngine.checkCollisionsLog_mem_of hmem hcol
      (CollisionEngine.handleCollision_mem_right hc)
  · intro hne e c x hentry
    rcases (CollisionEngine.handleCollision_mem hentry).2 with ⟨he, hx⟩ | ⟨he, hx⟩
    · subst he
      subst hx
      exact fun hxe => hne hxe.symm
    · subst he
      subst hx
      exact fun hxe => hne hxe
  · intro hnd e c x hentry
    obtain ⟨ab, hab, hcolab, hin⟩ :=
      CollisionEngine.checkCollisionsLog_mem hentry
    have hne : ab.1 ≠ ab.2 := CollisionEngine.sweepFrom_ne hnd hab
    rcases (CollisionEngine.handleCollision_mem hin).2 with ⟨he, hx⟩ | ⟨he, hx⟩
    · subst he
      subst hx
      exact fun hxe => hne hxe.symm
    · subst he
      subst hx
      exact fun hxe => hne hxe

/-- Witness for dispatch symmetry at the touching fixture with both
entities subscribed: the subscription of entity 1 fires with 2, the
subscription of entity 2 fires with 1, and the distinct pair never hands
a subscriber its own entity. -/
theorem collision_dispatch_symmetry_witness :
    ((1 : ℕ), (2 : ℕ)) ∈ CollisionEngine.sweepFrom [1, 2] ∧
    CollisionEngine.isColliding (touchStore 1) (touchStore 2) = true ∧
    (1, 7, 2) ∈
      CollisionEngine.checkCollisionsLog touchStore [1, 2]
        [(1, 7), (2, 8)] ∧
    (2, 8, 1) ∈
      CollisionEngine.checkCollisionsLog touchStore [1, 2]
        [(1, 7), (2, 8)] ∧
    (2 : ℕ) ≠ (1 : ℕ) := by
  have hmem : ((1 : ℕ), (2 : ℕ)) ∈ CollisionEngine.sweepFrom [1, 2] := by
    decide
  have hcol : CollisionEngine.isColliding (touchStore 1) (touchStore 2) =
      true := by
    norm_num [CollisionEngine.isColliding, jsAdd, jsLt, jsGt, touchStore,
      touchA, touchB]
  have h := collision_dispatch_symmetry touchStore [1, 2] [(1, 7), (2, 8)]
    1 2 hmem hcol
  exact ⟨hmem, hcol, h.1 7 (by decide), h.2.1 8 (by decide),
    h.2.2.1 (by decide) 1 7 2 (by decide)⟩

/-- C8: a subscription callback that unregisters an entity mid-sweep
takes effect immediately for the remainder of that checkCollisions call.
With registry [player 1, coin 2, coin 3], all three mutually overlapping
and the player subscribed with the coin handler: colliding with coin 2
unregisters it, the entity shifted into its index (3) is skipped by the
advancing loop indices, and the sweep ends having fired only the
invocation for coin 2 - even though player 1 and coin 3 both remain
registered and do overlap, no callback fires for that pair in this
call. -/
theorem midsweep_unregister_skips_live_pair :
    midSweepResult.registry = [1, 3] ∧
    midSweepResult.score = 1 ∧
    midSweepResult.log = [(1, 9, 2)] ∧
    CollisionEngine.isColliding (midSweepStore 1) (midSweepStore 3) = true ∧
    (1, 9, 3) ∉ midSweepResult.log := by
  refine ⟨?_, ?_, ?_, ?_, ?_⟩ <;>
    norm_num [midSweepResult, CollisionEngine.checkCollisionsRun,
      CollisionEngine.outerRun, CollisionEngine.innerRun,
      CollisionEngine.handleCollisionRun, CollisionEngine.coinHandlerApply,
      CollisionEngine.isColliding, jsAdd, jsLt, jsGt, midSweepStore]

/-- C10: the coincident-positions guard.  When the player and enemy
positions exactly coincide, the captured center difference is zero, the
distance evaluates to zero, the positivity guard fails, and the bounce
impulse (the only place dividing by the distance) is skipped entirely:
the response is exactly the static resolution against the enemy together
with the score penalty of 10. -/
theorem enemy_coincident_guard (p : PlayerState ℝ) (e : EntityGeom ℝ)
    (score : ℤ) (hx : p.x = e.x) (hy : p.y = e.y) :
    GameModel.enemyCollisionResponse p e score =
      (GameModel.handleStaticCollision p e, score - 10) := by
  simp [GameModel.enemyCollisionResponse, hx, hy]

/-- Witness for the coincident guard at a concrete coincident pair. -/
theorem enemy_coincident_guard_witness :
    coincidentPlayer.x = coincidentEnemy.x ∧
    coincidentPlayer.y = coincidentEnemy.y ∧
    GameModel.enemyCollisionResponse coincidentPlayer coincidentEnemy 0 =
      (GameModel.handleStaticCollision coincidentPlayer coincidentEnemy,
        0 - 10) :=
  ⟨rfl, rfl, enemy_coincident_guard coincidentPlayer coincidentEnemy 0 rfl rfl⟩
